import Mathlib

/-!
Verification development for the match-player parsing pipeline
(`parse_match_players.py`).  The Python source is shallowly embedded:

* Python dicts become association lists preserving insertion order.
* The `players` CSV column is represented by the outcome of
  `ast.literal_eval` on its text: either the parsed nested mapping or the
  underlying parse-error message (the parser itself is an external library
  collaborator, within the scope of the spec).
* Python `float` values are modelled by rationals: the values flowing
  through the core are literals read from the input, and the code performs
  no floating-point arithmetic on them beyond coercion and truncation.
* Fallible Python code (raising exceptions) becomes `Except String`,
  carrying the message text of the exception.
-/

/-- Model of a scalar value appearing in the parsed players structure
(the leaves produced by `ast.literal_eval`): a Python `str`, `int`, or
`float` literal. -/
inductive PyValue where
  | str : String → PyValue
  | int : Int → PyValue
  | float : ℚ → PyValue
deriving DecidableEq, Repr

/-- Accumulator pass of decimal-digit parsing: consumes the remaining
characters, failing on the first non-digit. -/
def decDigitsAux (acc : Nat) : List Char → Option Nat
  | [] => some acc
  | c :: cs => if c.isDigit then decDigitsAux (acc * 10 + (c.toNat - 48)) cs else none

/-- A non-empty all-digit character list read as a natural number. -/
def decDigitsVal (cs : List Char) : Option Nat :=
  match cs with
  | [] => none
  | _ :: _ => decDigitsAux 0 cs

/-- Modelled from Python `int(s)` on strings: an optional leading minus
sign followed by decimal digits (whitespace, `+` signs and underscore
separators accepted by CPython are not modelled; no input in this
development uses them). -/
def parseIntLit (s : String) : Option Int :=
  match s.toList with
  | [] => none
  | c :: cs =>
    if c = '-' then (decDigitsVal cs).map (fun n => -(n : Int))
    else (decDigitsVal (c :: cs)).map (fun n => (n : Int))

/-- Unsigned decimal literal with optional fractional part. -/
def parseUFloat (cs : List Char) : Option ℚ :=
  match cs.splitOn '.' with
  | [w] => (decDigitsVal w).map (fun n => (n : ℚ))
  | [w, f] =>
    match decDigitsVal w, decDigitsVal f with
    | some n, some m => some ((n : ℚ) + (m : ℚ) / ((10 : ℚ) ^ f.length))
    | _, _ => none
  | _ => none

/-- Modelled from Python `float(s)` on strings: optional minus sign,
digits, optional fractional part. -/
def parseFloatLit (s : String) : Option ℚ :=
  match s.toList with
  | [] => none
  | c :: cs =>
    if c = '-' then (parseUFloat cs).map (fun q => -q)
    else parseUFloat (c :: cs)

/-- Truncation toward zero, the behaviour of Python `int()` on a float. -/
def ratTrunc (q : ℚ) : Int := if 0 ≤ q then ⌊q⌋ else ⌈q⌉

/-- Model of Python `int(v)` on the scalar values of the players
structure (`_parse_match_row`, lines 122-135).  A string that is not an
integer literal raises `ValueError` with the CPython message, which carries
the offending text only. -/
def pyInt : PyValue → Except String Int
  | PyValue.int n => Except.ok n
  | PyValue.float q => Except.ok (ratTrunc q)
  | PyValue.str s =>
    match parseIntLit s with
    | some n => Except.ok n
    | none => Except.error ("invalid literal for int() with base 10: " ++ s)

/-- Model of Python `float(v)` (`_parse_match_row`, line 121). -/
def pyFloat : PyValue → Except String ℚ
  | PyValue.int n => Except.ok (n : ℚ)
  | PyValue.float q => Except.ok q
  | PyValue.str s =>
    match parseFloatLit s with
    | some q => Except.ok q
    | none => Except.error ("could not convert string to float: " ++ s)

/-- Model of Python `dict.get(key, default)` over an association list
(the dicts produced by `ast.literal_eval` have unique keys, so first
match equals dict lookup). -/
def pyGet : List (String × PyValue) → String → PyValue → PyValue
  | [], _, dflt => dflt
  | (k, v) :: rest, key, dflt => if k = key then v else pyGet rest key dflt

/-- Whether a stat key is present in the stats dict of a player. -/
def hasField (stats : List (String × PyValue)) (k : String) : Bool :=
  stats.any (fun e => decide (e.1 = k))

/-- `PlayerStats` dataclass (source lines 8-30): structured data for a
player match statistics.  `player_name`, `position` and `archetype_id`
hold whatever `dict.get` returned (the source applies no coercion), so
they keep type `PyValue`. -/
structure PlayerStats where
  player_id : String
  player_name : PyValue
  club_id : String
  position : PyValue
  archetype_id : PyValue
  rating : ℚ
  goals : Int
  assists : Int
  shots : Int
  passes_made : Int
  pass_attempts : Int
  tackles_made : Int
  tackle_attempts : Int
  saves : Int
  seconds_played : Int
  score : Int
  wins : Int
  losses : Int
  red_cards : Int
  user_result : Int
deriving DecidableEq, Repr

/-- `MatchData` dataclass (source lines 33-50): one complete match, with
the per-club player lists in dict insertion order. -/
structure MatchData where
  match_id : String
  timestamp : String
  time_ago : String
  players_by_club : List (String × List PlayerStats)
deriving DecidableEq, Repr

/-- `MostRecentMatch` dataclass (source lines 53-68). -/
structure MostRecentMatch where
  match_id : String
  timestamp : String
  time_ago : String
  players : List PlayerStats
  is_new : Bool
deriving DecidableEq, Repr

/-- `MatchData.get_all_players` (source lines 45-50): accumulate the
players of every club bucket, in bucket order. -/
def MatchData.get_all_players (m : MatchData) : List PlayerStats :=
  m.players_by_club.foldl (fun acc e => acc ++ e.2) []

/-- The `players` column of a raw CSV row, represented by the outcome of
`ast.literal_eval` on its text: the parsed nested mapping
(club id → player id → stat name → value) or the parse-error message. -/
inductive PlayersField where
  | parsed : List (String × List (String × List (String × PyValue))) → PlayersField
  | malformed : String → PlayersField
deriving DecidableEq

/-- A raw CSV row as consumed by `_parse_match_row` (source lines
95-102): the four named columns, already rendered to strings by `str`. -/
structure RawRow where
  matchId : String
  timestamp : String
  timeAgo : String
  players : PlayersField
deriving DecidableEq

/-- Except-bind used for the embedded fallible code: a raised exception
propagates, otherwise the continuation runs. -/
def exBind {α β : Type} : Except String α → (α → Except String β) → Except String β
  | Except.error e, _ => Except.error e
  | Except.ok a, f => f a

/-- Sequential fallible map, modelling a Python loop whose body may
raise: the first exception aborts the whole loop. -/
def exMapM {α β : Type} (f : α → Except String β) : List α → Except String (List β)
  | [] => Except.ok []
  | x :: xs => exBind (f x) (fun y => exBind (exMapM f xs) (fun ys => Except.ok (y :: ys)))

/-- Construction of one `PlayerStats` from a parsed player-stats dict
(`_parse_match_row`, source lines 115-136), with the defaults of the source
for absent keys and the coercion order of the source (`rating` first, then the
integer counters in declaration order). -/
def parsePlayer (club_id player_id : String) (stats : List (String × PyValue)) :
    Except String PlayerStats :=
  exBind (pyFloat (pyGet stats "rating" (PyValue.int 0))) (fun rating =>
  exBind (pyInt (pyGet stats "goals" (PyValue.int 0))) (fun goals =>
  exBind (pyInt (pyGet stats "assists" (PyValue.int 0))) (fun assists =>
  exBind (pyInt (pyGet stats "shots" (PyValue.int 0))) (fun shots =>
  exBind (pyInt (pyGet stats "passesmade" (PyValue.int 0))) (fun passes_made =>
  exBind (pyInt (pyGet stats "passattempts" (PyValue.int 0))) (fun pass_attempts =>
  exBind (pyInt (pyGet stats "tacklesmade" (PyValue.int 0))) (fun tackles_made =>
  exBind (pyInt (pyGet stats "tackleattempts" (PyValue.int 0))) (fun tackle_attempts =>
  exBind (pyInt (pyGet stats "saves" (PyValue.int 0))) (fun saves =>
  exBind (pyInt (pyGet stats "secondsPlayed" (PyValue.int 0))) (fun seconds_played =>
  exBind (pyInt (pyGet stats "SCORE" (PyValue.int 0))) (fun score =>
  exBind (pyInt (pyGet stats "wins" (PyValue.int 0))) (fun wins =>
  exBind (pyInt (pyGet stats "losses" (PyValue.int 0))) (fun losses =>
  exBind (pyInt (pyGet stats "redcards" (PyValue.int 0))) (fun red_cards =>
  exBind (pyInt (pyGet stats "userResult" (PyValue.int 0))) (fun user_result =>
  Except.ok {
    player_id := player_id
    player_name := pyGet stats "playername" (PyValue.str "Unknown")
    club_id := club_id
    position := pyGet stats "pos" (PyValue.str "Unknown")
    archetype_id := pyGet stats "archetypeid" (PyValue.str "0")
    rating := rating
    goals := goals
    assists := assists
    shots := shots
    passes_made := passes_made
    pass_attempts := pass_attempts
    tackles_made := tackles_made
    tackle_attempts := tackle_attempts
    saves := saves
    seconds_played := seconds_played
    score := score
    wins := wins
    losses := losses
    red_cards := red_cards
    user_result := user_result })))))))))))))))

/-- One club bucket of `_parse_match_row` (source lines 111-137): parse
every player of the club, keyed by the club id. -/
def clubEntry (ce : String × List (String × List (String × PyValue))) :
    Except String (String × List PlayerStats) :=
  exBind (exMapM (fun pe => parsePlayer ce.1 pe.1 pe.2) ce.2)
    (fun ps => Except.ok (ce.1, ps))

/-- `MatchPlayerParser._parse_match_row` (source lines 95-144): a
malformed players column raises `ValueError` with the message built on
line 106; otherwise the nested mapping is folded into a `MatchData`. -/
def parse_match_row (row : RawRow) : Except String MatchData :=
  match row.players with
  | PlayersField.malformed e => Except.error ("Could not parse players data: " ++ e)
  | PlayersField.parsed pd =>
    exBind (exMapM clubEntry pd) (fun pbc =>
      Except.ok {
        match_id := row.matchId
        timestamp := row.timestamp
        time_ago := row.timeAgo
        players_by_club := pbc })

/-- Indexed loop of `MatchPlayerParser.parse_csv` (source lines 85-91):
each row either contributes a `MatchData` or is skipped, recording the
row index together with the message of the exception (the `print` on line
90). -/
def parseCsvRows : Nat → List RawRow → List MatchData × List (Nat × String)
  | _, [] => ([], [])
  | idx, r :: rs =>
    match parse_match_row r with
    | Except.ok m => (m :: (parseCsvRows (idx + 1) rs).1, (parseCsvRows (idx + 1) rs).2)
    | Except.error e => ((parseCsvRows (idx + 1) rs).1, (idx, e) :: (parseCsvRows (idx + 1) rs).2)

/-- `MatchPlayerParser.parse_csv` (source lines 81-93): the parsed
matches in row order, and the per-row failures that were reported and
skipped. -/
def parse_csv (rows : List RawRow) : List MatchData × List (Nat × String) :=
  parseCsvRows 0 rows

/-- A row of the persisted `most_recent_matches` snapshot
(`update_most_recent_matches`, source lines 197-216): the flattened
projection of one player in one match, omitting archetype, wins, losses,
red cards and user result. -/
structure SnapshotRow where
  matchId : String
  timestamp : String
  timeAgo : String
  club_id : String
  player_id : String
  player_name : PyValue
  position : PyValue
  rating : ℚ
  goals : Int
  assists : Int
  shots : Int
  passes_made : Int
  pass_attempts : Int
  tackles_made : Int
  tackle_attempts : Int
  saves : Int
  seconds_played : Int
  score : Int
deriving DecidableEq, Repr

/-- The snapshot row built for one player of one match (source lines
197-216; `club_id` is read from the player, not from the bucket key). -/
def snapshotRowOf (m : MatchData) (p : PlayerStats) : SnapshotRow :=
  { matchId := m.match_id
    timestamp := m.timestamp
    timeAgo := m.time_ago
    club_id := p.club_id
    player_id := p.player_id
    player_name := p.player_name
    position := p.position
    rating := p.rating
    goals := p.goals
    assists := p.assists
    shots := p.shots
    passes_made := p.passes_made
    pass_attempts := p.pass_attempts
    tackles_made := p.tackles_made
    tackle_attempts := p.tackle_attempts
    saves := p.saves
    seconds_played := p.seconds_played
    score := p.score }

/-- The flattening loop of `update_most_recent_matches` (source lines
193-216): every (match, club, player) triple in iteration order. -/
def currentMatchesData (ms : List MatchData) : List SnapshotRow :=
  (ms.map (fun m =>
    (m.players_by_club.map (fun ce => ce.2.map (snapshotRowOf m))).flatten)).flatten

/-- The deduplication key of the snapshot: `(matchId, player_id)`
(source line 226). -/
def rowKey (r : SnapshotRow) : String × String := (r.matchId, r.player_id)

/-- Whether some row of `l` carries the key `k`. -/
def keyIn (k : String × String) (l : List SnapshotRow) : Bool :=
  l.any (fun x => decide (rowKey x = k))

/-- pandas `drop_duplicates(subset=..., keep=..)` with the keep-last
policy of source line 226: a row survives exactly when no later row
shares its key, and surviving rows keep their original relative order. -/
def dropDuplicatesKeepLast : List SnapshotRow → List SnapshotRow
  | [] => []
  | r :: rs =>
    if keyIn (rowKey r) rs then dropDuplicatesKeepLast rs
    else r :: dropDuplicatesKeepLast rs

/-- `MatchPlayerParser.update_most_recent_matches` (source lines
186-233) as a function from the loaded snapshot (`none` = the file did
not exist) to the snapshot contents written back.  With no matches the
method returns without writing; with an existing snapshot it concatenates
and deduplicates keep-last; with no prior snapshot it writes the
flattened rows as they are. -/
def update_most_recent_matches (ms : List MatchData)
    (snapshot : Option (List SnapshotRow)) : Option (List SnapshotRow) :=
  if ms.isEmpty then snapshot
  else
    match snapshot with
    | some rows => some (dropDuplicatesKeepLast (rows ++ currentMatchesData ms))
    | none => some (currentMatchesData ms)

/-- The distinct observable outcomes of `check_for_new_matches`: which
console message the run prints (source lines 166, 178, 182).  `none` (no
message) is the early return of line 160. -/
inductive DetectMessage where
  | noSnapshot
  | detectedNew : Nat → DetectMessage
  | noNew
deriving DecidableEq, Repr

/-- Model of a Python `set` built from a list: duplicates removed. -/
def distinctIds : List String → List String
  | [] => []
  | x :: xs => if x ∈ distinctIds xs then distinctIds xs else x :: distinctIds xs

/-- `MatchPlayerParser.check_for_new_matches` (source lines 154-184):
returns the boolean result, the resulting `new_matches_detected` flag
(unchanged from `flag` on the empty-matches early return), and the
printed message. -/
def check_for_new_matches (ms : List MatchData)
    (snapshot : Option (List SnapshotRow)) (flag : Bool) :
    Bool × Bool × Option DetectMessage :=
  if ms.isEmpty then (false, flag, none)
  else
    match snapshot with
    | none => (true, true, some DetectMessage.noSnapshot)
    | some rows =>
      let existing := rows.map (fun r => r.matchId)
      let current := distinctIds (ms.map (fun m => m.match_id))
      let newIds := current.filter (fun i => decide (i ∉ existing))
      if newIds.isEmpty then (false, false, some DetectMessage.noNew)
      else (true, true, some (DetectMessage.detectedNew newIds.length))

/-- `MatchPlayerParser.get_most_recent_match` (source lines 235-255):
`none` on an empty match list, otherwise the first match flattened, with
`is_new` taken from the current `new_matches_detected` flag. -/
def get_most_recent_match (ms : List MatchData) (new_matches_detected : Bool) :
    Option MostRecentMatch :=
  match ms with
  | [] => none
  | m :: _ =>
    some {
      match_id := m.match_id
      timestamp := m.timestamp
      time_ago := m.time_ago
      players := m.get_all_players
      is_new := new_matches_detected }

/-- Whether `needle` occurs at the start of `hay`. -/
def segStartsAt : List Char → List Char → Bool
  | [], _ => true
  | _ :: _, [] => false
  | a :: as, b :: bs => decide (a = b) && segStartsAt as bs

/-- Whether `needle` occurs anywhere inside `hay`. -/
def hasSeg (needle hay : List Char) : Bool :=
  match hay with
  | [] => segStartsAt needle []
  | _ :: t => segStartsAt needle hay || hasSeg needle t

/-- Whether an error message mentions a given identifier (as literal
substring). -/
def mentions (msg needle : String) : Bool :=
  hasSeg needle.toList msg.toList

/-- The rows of a snapshot carrying a given key, in order. -/
def rowsForKey (k : String × String) (l : List SnapshotRow) : List SnapshotRow :=
  l.filter (fun r => decide (rowKey r = k))

/-- Decidable equality of embedded fallible results. -/
instance {ε α : Type} [DecidableEq ε] [DecidableEq α] : DecidableEq (Except ε α)
  | Except.error e, Except.error f =>
    if h : e = f then Decidable.isTrue (by rw [h])
    else Decidable.isFalse (fun hh => h (Except.error.inj hh))
  | Except.error _, Except.ok _ => Decidable.isFalse (fun hh => Except.noConfusion hh)
  | Except.ok _, Except.error _ => Decidable.isFalse (fun hh => Except.noConfusion hh)
  | Except.ok a, Except.ok b =>
    if h : a = b then Decidable.isTrue (by rw [h])
    else Decidable.isFalse (fun hh => h (Except.ok.inj hh))

/-- Stats payload of the worked example row of the spec. -/
def exampleStats : List (String × PyValue) :=
  [("playername", PyValue.str "Alice"), ("goals", PyValue.int 2)]

/-- Parsed players column of the worked example row of the spec. -/
def examplePlayers : List (String × List (String × List (String × PyValue))) :=
  [("club1", [("p1", exampleStats)])]

/-- The worked example row of the spec. -/
def exampleRow : RawRow :=
  { matchId := "42", timestamp := "T", timeAgo := "2h",
    players := PlayersField.parsed examplePlayers }

/-- The player the worked example row normalizes to. -/
def examplePlayer : PlayerStats :=
  { player_id := "p1", player_name := PyValue.str "Alice", club_id := "club1",
    position := PyValue.str "Unknown", archetype_id := PyValue.str "0",
    rating := 0, goals := 2, assists := 0, shots := 0, passes_made := 0,
    pass_attempts := 0, tackles_made := 0, tackle_attempts := 0, saves := 0,
    seconds_played := 0, score := 0, wins := 0, losses := 0, red_cards := 0,
    user_result := 0 }

/-- The match the worked example row normalizes to. -/
def exampleMatch : MatchData :=
  { match_id := "42", timestamp := "T", time_ago := "2h",
    players_by_club := [("club1", [examplePlayer])] }

/-- All-default player produced from an empty stats dict under club
`c`, player `p`. -/
def defaultPlayer : PlayerStats :=
  { player_id := "p", player_name := PyValue.str "Unknown", club_id := "c",
    position := PyValue.str "Unknown", archetype_id := PyValue.str "0",
    rating := 0, goals := 0, assists := 0, shots := 0, passes_made := 0,
    pass_attempts := 0, tackles_made := 0, tackle_attempts := 0, saves := 0,
    seconds_played := 0, score := 0, wins := 0, losses := 0, red_cards := 0,
    user_result := 0 }

/-- A raw row whose players column lists the same player key under two
club buckets; the normalizer accepts it. -/
def cexRow : RawRow :=
  { matchId := "m", timestamp := "t", timeAgo := "now",
    players := PlayersField.parsed [("a", [("p", [])]), ("b", [("p", [])])] }

/-- Player `p` of club `a` in the collision match. -/
def cexPlayerA : PlayerStats :=
  { player_id := "p", player_name := PyValue.str "Unknown", club_id := "a",
    position := PyValue.str "Unknown", archetype_id := PyValue.str "0",
    rating := 0, goals := 0, assists := 0, shots := 0, passes_made := 0,
    pass_attempts := 0, tackles_made := 0, tackle_attempts := 0, saves := 0,
    seconds_played := 0, score := 0, wins := 0, losses := 0, red_cards := 0,
    user_result := 0 }

/-- Player `p` of club `b` in the collision match. -/
def cexPlayerB : PlayerStats :=
  { player_id := "p", player_name := PyValue.str "Unknown", club_id := "b",
    position := PyValue.str "Unknown", archetype_id := PyValue.str "0",
    rating := 0, goals := 0, assists := 0, shots := 0, passes_made := 0,
    pass_attempts := 0, tackles_made := 0, tackle_attempts := 0, saves := 0,
    seconds_played := 0, score := 0, wins := 0, losses := 0, red_cards := 0,
    user_result := 0 }

/-- The normalized collision match: one player key under two clubs, so
two flattened rows share the snapshot key. -/
def cexMatch : MatchData :=
  { match_id := "m", timestamp := "t", time_ago := "now",
    players_by_club := [("a", [cexPlayerA]), ("b", [cexPlayerB])] }

/-- Incoming player for the order counterexample: key (m1, p1), 5
goals. -/
def c3Player : PlayerStats :=
  { player_id := "p1", player_name := PyValue.str "Bob", club_id := "c1",
    position := PyValue.str "Unknown", archetype_id := PyValue.str "0",
    rating := 0, goals := 5, assists := 0, shots := 0, passes_made := 0,
    pass_attempts := 0, tackles_made := 0, tackle_attempts := 0, saves := 0,
    seconds_played := 0, score := 0, wins := 0, losses := 0, red_cards := 0,
    user_result := 0 }

/-- Incoming match for the order counterexample. -/
def c3Match : MatchData :=
  { match_id := "m1", timestamp := "t1", time_ago := "1h",
    players_by_club := [("c1", [c3Player])] }

/-- Existing snapshot row with key (m1, p1) and 3 goals, sitting at the
front of the snapshot. -/
def snapRow1 : SnapshotRow :=
  { matchId := "m1", timestamp := "t0", timeAgo := "3h", club_id := "c1",
    player_id := "p1", player_name := PyValue.str "Bob",
    position := PyValue.str "Unknown", rating := 0, goals := 3, assists := 0,
    shots := 0, passes_made := 0, pass_attempts := 0, tackles_made := 0,
    tackle_attempts := 0, saves := 0, seconds_played := 0, score := 0 }

/-- Existing snapshot row with the unrelated key (m2, p2). -/
def snapRow2 : SnapshotRow :=
  { matchId := "m2", timestamp := "t0", timeAgo := "3h", club_id := "c2",
    player_id := "p2", player_name := PyValue.str "Eve",
    position := PyValue.str "Unknown", rating := 0, goals := 0, assists := 0,
    shots := 0, passes_made := 0, pass_attempts := 0, tackles_made := 0,
    tackle_attempts := 0, saves := 0, seconds_played := 0, score := 0 }

/-- Whether a raw row parses without raising (the rows `parse_csv` does
not skip). -/
def rowOk (r : RawRow) : Bool :=
  match parse_match_row r with
  | Except.ok _ => true
  | Except.error _ => false

/-- A raw row whose players column fails `ast.literal_eval`. -/
def c5Bad : RawRow :=
  { matchId := "9", timestamp := "T9", timeAgo := "1d",
    players := PlayersField.malformed "bad" }

/-- Coercion success of every numeric field of a stats dict, in source
order. -/
def coercionsOk (stats : List (String × PyValue)) : Bool :=
  (pyFloat (pyGet stats "rating" (PyValue.int 0))).isOk &&
  (pyInt (pyGet stats "goals" (PyValue.int 0))).isOk &&
  (pyInt (pyGet stats "assists" (PyValue.int 0))).isOk &&
  (pyInt (pyGet stats "shots" (PyValue.int 0))).isOk &&
  (pyInt (pyGet stats "passesmade" (PyValue.int 0))).isOk &&
  (pyInt (pyGet stats "passattempts" (PyValue.int 0))).isOk &&
  (pyInt (pyGet stats "tacklesmade" (PyValue.int 0))).isOk &&
  (pyInt (pyGet stats "tackleattempts" (PyValue.int 0))).isOk &&
  (pyInt (pyGet stats "saves" (PyValue.int 0))).isOk &&
  (pyInt (pyGet stats "secondsPlayed" (PyValue.int 0))).isOk &&
  (pyInt (pyGet stats "SCORE" (PyValue.int 0))).isOk &&
  (pyInt (pyGet stats "wins" (PyValue.int 0))).isOk &&
  (pyInt (pyGet stats "losses" (PyValue.int 0))).isOk &&
  (pyInt (pyGet stats "redcards" (PyValue.int 0))).isOk &&
  (pyInt (pyGet stats "userResult" (PyValue.int 0))).isOk

/-- Inversion of `exBind` on a successful run. -/
theorem exBind_ok {α β : Type} {x : Except String α} {f : α → Except String β} {b : β}
    (h : exBind x f = Except.ok b) : ∃ a, x = Except.ok a ∧ f a = Except.ok b := by
  cases x with
  | error e => simp [exBind] at h
  | ok a => exact ⟨a, rfl, h⟩

/-- Inversion of `exMapM` on a successful run: outputs correspond
pointwise to inputs. -/
theorem exMapM_ok {α β : Type} {f : α → Except String β} :
    ∀ {xs : List α} {ys : List β}, exMapM f xs = Except.ok ys →
      List.Forall₂ (fun x y => f x = Except.ok y) xs ys := by
  intro xs
  induction xs with
  | nil =>
    intro ys h
    simp only [exMapM] at h
    injection h with h
    rw [← h]
    exact List.Forall₂.nil
  | cons x xs ih =>
    intro ys h
    simp only [exMapM] at h
    obtain ⟨y, hy, h⟩ := exBind_ok h
    obtain ⟨zs, hzs, h⟩ := exBind_ok h
    injection h with h
    rw [← h]
    exact List.Forall₂.cons hy (ih hzs)

/-- A member of the right list of a `Forall₂` is related to some member
of the left list. -/
theorem forallTwo_mem {α β : Type} {R : α → β → Prop} :
    ∀ {xs : List α} {ys : List β}, List.Forall₂ R xs ys →
      ∀ y ∈ ys, ∃ x ∈ xs, R x y := by
  intro xs ys h
  induction h with
  | nil => intro y hy; cases hy
  | cons hr _ ih =>
    intro y hy
    cases hy with
    | head => exact ⟨_, List.mem_cons_self _ _, hr⟩
    | tail _ hy =>
      obtain ⟨x, hx, hxy⟩ := ih y hy
      exact ⟨x, List.mem_cons_of_mem _ hx, hxy⟩

/-- Characterisation of a successful `parsePlayer`: every field of the
produced `PlayerStats` is determined by the stats dict exactly as in the
source constructor call. -/
theorem parsePlayer_fields {cid pid : String} {stats : List (String × PyValue)}
    {st : PlayerStats} (h : parsePlayer cid pid stats = Except.ok st) :
    st.player_id = pid ∧ st.club_id = cid ∧
    st.player_name = pyGet stats "playername" (PyValue.str "Unknown") ∧
    st.position = pyGet stats "pos" (PyValue.str "Unknown") ∧
    st.archetype_id = pyGet stats "archetypeid" (PyValue.str "0") ∧
    pyFloat (pyGet stats "rating" (PyValue.int 0)) = Except.ok st.rating ∧
    pyInt (pyGet stats "goals" (PyValue.int 0)) = Except.ok st.goals ∧
    pyInt (pyGet stats "assists" (PyValue.int 0)) = Except.ok st.assists ∧
    pyInt (pyGet stats "shots" (PyValue.int 0)) = Except.ok st.shots ∧
    pyInt (pyGet stats "passesmade" (PyValue.int 0)) = Except.ok st.passes_made ∧
    pyInt (pyGet stats "passattempts" (PyValue.int 0)) = Except.ok st.pass_attempts ∧
    pyInt (pyGet stats "tacklesmade" (PyValue.int 0)) = Except.ok st.tackles_made ∧
    pyInt (pyGet stats "tackleattempts" (PyValue.int 0)) = Except.ok st.tackle_attempts ∧
    pyInt (pyGet stats "saves" (PyValue.int 0)) = Except.ok st.saves ∧
    pyInt (pyGet stats "secondsPlayed" (PyValue.int 0)) = Except.ok st.seconds_played ∧
    pyInt (pyGet stats "SCORE" (PyValue.int 0)) = Except.ok st.score ∧
    pyInt (pyGet stats "wins" (PyValue.int 0)) = Except.ok st.wins ∧
    pyInt (pyGet stats "losses" (PyValue.int 0)) = Except.ok st.losses ∧
    pyInt (pyGet stats "redcards" (PyValue.int 0)) = Except.ok st.red_cards ∧
    pyInt (pyGet stats "userResult" (PyValue.int 0)) = Except.ok st.user_result := by
  unfold parsePlayer at h
  obtain ⟨rating, h1, h⟩ := exBind_ok h
  obtain ⟨goals, h2, h⟩ := exBind_ok h
  obtain ⟨assists, h3, h⟩ := exBind_ok h
  obtain ⟨shots, h4, h⟩ := exBind_ok h
  obtain ⟨passes_made, h5, h⟩ := exBind_ok h
  obtain ⟨pass_attempts, h6, h⟩ := exBind_ok h
  obtain ⟨tackles_made, h7, h⟩ := exBind_ok h
  obtain ⟨tackle_attempts, h8, h⟩ := exBind_ok h
  obtain ⟨saves, h9, h⟩ := exBind_ok h
  obtain ⟨seconds_played, h10, h⟩ := exBind_ok h
  obtain ⟨score, h11, h⟩ := exBind_ok h
  obtain ⟨wins, h12, h⟩ := exBind_ok h
  obtain ⟨losses, h13, h⟩ := exBind_ok h
  obtain ⟨red_cards, h14, h⟩ := exBind_ok h
  obtain ⟨user_result, h15, h⟩ := exBind_ok h
  injection h with h
  rw [← h]
  exact ⟨rfl, rfl, rfl, rfl, rfl, h1, h2, h3, h4, h5, h6, h7, h8,
    h9, h10, h11, h12, h13, h14, h15⟩

/-- An absent key makes `pyGet` return its default. -/
theorem pyGet_default : ∀ {stats : List (String × PyValue)} {k : String} {d : PyValue},
    hasField stats k = false → pyGet stats k d = d := by
  intro stats
  induction stats with
  | nil => intro k d _; rfl
  | cons e rest ih =>
    intro k d h
    obtain ⟨k1, v⟩ := e
    simp only [hasField, List.any_cons, Bool.or_eq_false_iff,
      decide_eq_false_iff_not] at h
    simp only [pyGet, if_neg h.1]
    exact ih h.2

/-- Membership characterisation of `keyIn`. -/
theorem keyIn_iff {k : String × String} {l : List SnapshotRow} :
    keyIn k l = true ↔ ∃ r ∈ l, rowKey r = k := by
  simp [keyIn, List.any_eq_true]

/-- A key absent from a list differs from the key of each of its rows. -/
theorem keyIn_false {k : String × String} {l : List SnapshotRow}
    (h : keyIn k l = false) (r : SnapshotRow) (hr : r ∈ l) : rowKey r ≠ k := by
  intro he
  have ht : keyIn k l = true := keyIn_iff.mpr ⟨r, hr, he⟩
  rw [h] at ht
  cases ht

/-- `keyIn` distributes over append. -/
theorem keyIn_append {k : String × String} {a b : List SnapshotRow} :
    keyIn k (a ++ b) = (keyIn k a || keyIn k b) := by
  simp [keyIn, List.any_append]

/-- Unfolding of the deduplication when a later row shares the key. -/
theorem dropDup_cons_of_dup {a : SnapshotRow} {t : List SnapshotRow}
    (h : keyIn (rowKey a) t = true) :
    dropDuplicatesKeepLast (a :: t) = dropDuplicatesKeepLast t := by
  simp [dropDuplicatesKeepLast, h]

/-- Unfolding of the deduplication when no later row shares the key. -/
theorem dropDup_cons_of_new {a : SnapshotRow} {t : List SnapshotRow}
    (h : keyIn (rowKey a) t = false) :
    dropDuplicatesKeepLast (a :: t) = a :: dropDuplicatesKeepLast t := by
  simp [dropDuplicatesKeepLast, h]

/-- Deduplication only keeps rows of the original list. -/
theorem dropDup_subset : ∀ {l : List SnapshotRow} {r : SnapshotRow},
    r ∈ dropDuplicatesKeepLast l → r ∈ l := by
  intro l
  induction l with
  | nil => intro r h; cases h
  | cons a t ih =>
    intro r h
    cases hk : keyIn (rowKey a) t with
    | true =>
      rw [dropDup_cons_of_dup hk] at h
      exact List.mem_cons_of_mem a (ih h)
    | false =>
      rw [dropDup_cons_of_new hk] at h
      cases h with
      | head => exact List.mem_cons_self a t
      | tail _ h => exact List.mem_cons_of_mem a (ih h)

/-- After deduplication all keys are pairwise distinct. -/
theorem dropDup_pairwise : ∀ (l : List SnapshotRow),
    List.Pairwise (fun a b => rowKey a ≠ rowKey b) (dropDuplicatesKeepLast l) := by
  intro l
  induction l with
  | nil => exact List.Pairwise.nil
  | cons a t ih =>
    cases hk : keyIn (rowKey a) t with
    | true => rw [dropDup_cons_of_dup hk]; exact ih
    | false =>
      rw [dropDup_cons_of_new hk]
      refine List.Pairwise.cons ?_ ih
      intro b hb
      exact fun he => keyIn_false hk b (dropDup_subset hb) he.symm

/-- Deduplication keeps, for each key, exactly the last row bearing it. -/
theorem rowsForKey_dropDup : ∀ (k : String × String) (l : List SnapshotRow),
    rowsForKey k (dropDuplicatesKeepLast l) = (rowsForKey k l).getLast?.toList := by
  intro k l
  induction l with
  | nil => rfl
  | cons a t ih =>
    cases hk : keyIn (rowKey a) t with
    | true =>
      rw [dropDup_cons_of_dup hk, ih]
      by_cases ha : rowKey a = k
      · have hkk : keyIn k t = true := by rw [← ha]; exact hk
        obtain ⟨b, hb, hbk⟩ := keyIn_iff.mp hkk
        have hbmem : b ∈ rowsForKey k t :=
          List.mem_filter.mpr ⟨hb, by simp [hbk]⟩
        have hcons : rowsForKey k (a :: t) = a :: rowsForKey k t := by
          simp [rowsForKey, List.filter_cons, ha]
        rw [hcons]
        cases hrt : rowsForKey k t with
        | nil => rw [hrt] at hbmem; cases hbmem
        | cons c cs => rw [List.getLast?_cons_cons]
      · have hcons : rowsForKey k (a :: t) = rowsForKey k t := by
          simp [rowsForKey, List.filter_cons, ha]
        rw [hcons]
    | false =>
      rw [dropDup_cons_of_new hk]
      by_cases ha : rowKey a = k
      · have hkk : keyIn k t = false := by rw [← ha]; exact hk
        have hnil : rowsForKey k t = [] := by
          rw [rowsForKey, List.filter_eq_nil_iff]
          intro b hb
          simp only [decide_eq_true_eq]
          exact keyIn_false hkk b hb
        have hdnil : rowsForKey k (dropDuplicatesKeepLast t) = [] := by
          rw [ih, hnil]; rfl
        have hcons1 : rowsForKey k (a :: dropDuplicatesKeepLast t) =
            a :: rowsForKey k (dropDuplicatesKeepLast t) := by
          simp [rowsForKey, List.filter_cons, ha]
        have hcons2 : rowsForKey k (a :: t) = a :: rowsForKey k t := by
          simp [rowsForKey, List.filter_cons, ha]
        rw [hcons1, hdnil, hcons2, hnil]
        rfl
      · have hcons1 : rowsForKey k (a :: dropDuplicatesKeepLast t) =
            rowsForKey k (dropDuplicatesKeepLast t) := by
          simp [rowsForKey, List.filter_cons, ha]
        have hcons2 : rowsForKey k (a :: t) = rowsForKey k t := by
          simp [rowsForKey, List.filter_cons, ha]
        rw [hcons1, hcons2, ih]

/-- Deduplicating an append: surviving left rows are those whose key
reappears neither later on the left nor anywhere on the right, followed
by the deduplicated right part. -/
theorem dropDup_append : ∀ (a b : List SnapshotRow),
    dropDuplicatesKeepLast (a ++ b) =
      (dropDuplicatesKeepLast a).filter (fun r => !keyIn (rowKey r) b) ++
        dropDuplicatesKeepLast b := by
  intro a b
  induction a with
  | nil => simp [dropDuplicatesKeepLast]
  | cons r t ih =>
    cases hkt : keyIn (rowKey r) t with
    | true =>
      have h1 : keyIn (rowKey r) (t ++ b) = true := by
        rw [keyIn_append, hkt, Bool.true_or]
      rw [List.cons_append, dropDup_cons_of_dup h1, ih, dropDup_cons_of_dup hkt]
    | false =>
      cases hkb : keyIn (rowKey r) b with
      | true =>
        have h1 : keyIn (rowKey r) (t ++ b) = true := by
          rw [keyIn_append, hkt, hkb, Bool.false_or]
        rw [List.cons_append, dropDup_cons_of_dup h1, ih, dropDup_cons_of_new hkt,
          List.filter_cons]
        simp [hkb]
      | false =>
        have h1 : keyIn (rowKey r) (t ++ b) = false := by
          rw [keyIn_append, hkt, hkb, Bool.false_or]
        rw [List.cons_append, dropDup_cons_of_new h1, ih, dropDup_cons_of_new hkt,
          List.filter_cons]
        simp [hkb]

/-- A list with pairwise-distinct keys is unchanged by deduplication. -/
theorem dropDup_eq_self : ∀ {l : List SnapshotRow},
    List.Pairwise (fun a b => rowKey a ≠ rowKey b) l →
      dropDuplicatesKeepLast l = l := by
  intro l
  induction l with
  | nil => intro _; rfl
  | cons a t ih =>
    intro h
    rw [List.pairwise_cons] at h
    have hk : keyIn (rowKey a) t = false := by
      cases hkk : keyIn (rowKey a) t with
      | false => rfl
      | true =>
        obtain ⟨b, hb, hbk⟩ := keyIn_iff.mp hkk
        exact absurd hbk.symm (h.1 b hb)
    rw [dropDup_cons_of_new hk, ih h.2]

/-- Re-merging the same right part into an already merged list changes
nothing. -/
theorem dropDup_merge_idem (a c : List SnapshotRow) :
    dropDuplicatesKeepLast (dropDuplicatesKeepLast (a ++ c) ++ c) =
      dropDuplicatesKeepLast (a ++ c) := by
  rw [dropDup_append (dropDuplicatesKeepLast (a ++ c)) c,
    dropDup_eq_self (dropDup_pairwise (a ++ c)), dropDup_append a c,
    List.filter_append]
  have h1 : ((dropDuplicatesKeepLast a).filter
        (fun r => !keyIn (rowKey r) c)).filter (fun r => !keyIn (rowKey r) c) =
      (dropDuplicatesKeepLast a).filter (fun r => !keyIn (rowKey r) c) := by
    rw [List.filter_filter]
    congr 1
    funext r
    exact Bool.and_self _
  have h2 : (dropDuplicatesKeepLast c).filter (fun r => !keyIn (rowKey r) c) = [] := by
    rw [List.filter_eq_nil_iff]
    intro r hr
    have hrc : keyIn (rowKey r) c = true :=
      keyIn_iff.mpr ⟨r, dropDup_subset hr, rfl⟩
    simp [hrc]
  rw [h1, h2, List.append_nil]

/-- Unfolding of the merge on a non-empty match list with an existing
snapshot. -/
theorem update_some_of_ne {ms : List MatchData} {rows : List SnapshotRow}
    (h : ms.isEmpty = false) :
    update_most_recent_matches ms (some rows) =
      some (dropDuplicatesKeepLast (rows ++ currentMatchesData ms)) := by
  simp [update_most_recent_matches, h]

/-- Unfolding of the merge on a non-empty match list with no prior
snapshot: the flattened rows are written without deduplication. -/
theorem update_none_of_ne {ms : List MatchData} (h : ms.isEmpty = false) :
    update_most_recent_matches ms none = some (currentMatchesData ms) := by
  simp [update_most_recent_matches, h]

/-- C1 counterexample: the claim quantifies over every snapshot state
and every list of normalized matches, but when no prior snapshot exists
the merge writes the flattened rows without deduplication (source lines
229-233).  `cexRow` is accepted by the normalizer and yields one match
whose player key `p` sits under two club buckets, so the created
snapshot holds two rows with the key (m, p). -/
theorem C1_counterexample :
    parse_csv [cexRow] = ([cexMatch], []) ∧
    update_most_recent_matches [cexMatch] none =
      some [snapshotRowOf cexMatch cexPlayerA, snapshotRowOf cexMatch cexPlayerB] ∧
    rowKey (snapshotRowOf cexMatch cexPlayerA) =
      rowKey (snapshotRowOf cexMatch cexPlayerB) ∧
    snapshotRowOf cexMatch cexPlayerA ≠ snapshotRowOf cexMatch cexPlayerB ∧
    ¬ List.Pairwise (fun a b => rowKey a ≠ rowKey b)
        [snapshotRowOf cexMatch cexPlayerA, snapshotRowOf cexMatch cexPlayerB] := by
  exact ⟨by decide, by decide, by decide, by decide, by decide⟩

/-- C1 (amended): when a prior snapshot exists, the merged snapshot has
at most one row per (match id, player id) key, and any key carried by
the incoming rows ends with exactly the last incoming row bearing it
(last-write-wins on full row content); when no prior snapshot exists the
flattened incoming rows are written verbatim, so per-key uniqueness
additionally requires the flattened rows to have pairwise distinct
keys. -/
theorem C1_theorem (rows : List SnapshotRow) (ms : List MatchData)
    (k : String × String) (h : ms ≠ [])
    (hk : keyIn k (currentMatchesData ms) = true) :
    update_most_recent_matches ms (some rows) =
      some (dropDuplicatesKeepLast (rows ++ currentMatchesData ms)) ∧
    List.Pairwise (fun a b => rowKey a ≠ rowKey b)
      (dropDuplicatesKeepLast (rows ++ currentMatchesData ms)) ∧
    rowsForKey k (dropDuplicatesKeepLast (rows ++ currentMatchesData ms)) =
      (rowsForKey k (currentMatchesData ms)).getLast?.toList ∧
    update_most_recent_matches ms none = some (currentMatchesData ms) := by
  have hne : ms.isEmpty = false := List.isEmpty_eq_false.mpr h
  have hne2 : rowsForKey k (currentMatchesData ms) ≠ [] := by
    obtain ⟨r, hr, hrk⟩ := keyIn_iff.mp hk
    intro hnil
    have hmem : r ∈ rowsForKey k (currentMatchesData ms) :=
      List.mem_filter.mpr ⟨hr, by simp [hrk]⟩
    rw [hnil] at hmem
    cases hmem
  refine ⟨update_some_of_ne hne, dropDup_pairwise _, ?_, update_none_of_ne hne⟩
  rw [rowsForKey_dropDup]
  have hsplit : rowsForKey k (rows ++ currentMatchesData ms) =
      rowsForKey k rows ++ rowsForKey k (currentMatchesData ms) := by
    simp [rowsForKey, List.filter_append]
  rw [hsplit, List.getLast?_append_of_ne_nil _ hne2]

/-- C1 witness: the amended claim evaluated on a one-row snapshot and
the one-match incoming list sharing no key with it. -/
theorem C1_witness :
    update_most_recent_matches [c3Match] (some [snapRow2]) =
      some (dropDuplicatesKeepLast ([snapRow2] ++ currentMatchesData [c3Match])) ∧
    List.Pairwise (fun a b => rowKey a ≠ rowKey b)
      (dropDuplicatesKeepLast ([snapRow2] ++ currentMatchesData [c3Match])) ∧
    rowsForKey ("m1", "p1")
        (dropDuplicatesKeepLast ([snapRow2] ++ currentMatchesData [c3Match])) =
      (rowsForKey ("m1", "p1") (currentMatchesData [c3Match])).getLast?.toList ∧
    update_most_recent_matches [c3Match] none =
      some (currentMatchesData [c3Match]) :=
  C1_theorem [snapRow2] [c3Match] ("m1", "p1") (by decide) (by decide)

/-- C2 counterexample: with no prior snapshot and the collision match,
the first merge writes two rows sharing the key (m, p) while the second
merge deduplicates them, so merging twice differs from merging once. -/
theorem C2_counterexample :
    update_most_recent_matches [cexMatch]
        (update_most_recent_matches [cexMatch] none) ≠
      update_most_recent_matches [cexMatch] none := by
  decide

/-- C2 (amended): the merge is idempotent whenever a prior snapshot
exists (and trivially on an empty match list); with no prior snapshot
the first merge skips deduplication, so idempotence can fail when the
flattened incoming rows repeat a key. -/
theorem C2_theorem (rows : List SnapshotRow) (ms : List MatchData) :
    update_most_recent_matches ms (update_most_recent_matches ms (some rows)) =
      update_most_recent_matches ms (some rows) := by
  cases hne : ms.isEmpty with
  | true => simp [update_most_recent_matches, hne]
  | false =>
    rw [update_some_of_ne hne, update_some_of_ne hne, dropDup_merge_idem]

/-- C3 counterexample: the snapshot row for (m1, p1) sits at position 0
but after merging an incoming row with that key, the row for that key
sits after the surviving row (m2, p2) — a replaced row does not keep its
original snapshot position. -/
theorem C3_counterexample :
    update_most_recent_matches [c3Match] (some [snapRow1, snapRow2]) =
      some [snapRow2, snapshotRowOf c3Match c3Player] ∧
    rowKey snapRow1 = rowKey (snapshotRowOf c3Match c3Player) ∧
    (some [snapRow2, snapshotRowOf c3Match c3Player] :
        Option (List SnapshotRow)) ≠
      some [snapshotRowOf c3Match c3Player, snapRow2] := by
  exact ⟨by decide, by decide, by decide⟩

/-- C3 (amended): for a snapshot with pairwise-distinct keys and a
non-empty match list, the merged snapshot is the existing rows whose key
does not occur among the incoming rows, in their original relative
order, followed by the incoming rows deduplicated keep-last in
match/player iteration order; the row of a replaced key therefore appears at
the appended position of the incoming row, not at its original one. -/
theorem C3_theorem (rows : List SnapshotRow) (ms : List MatchData)
    (h : ms ≠ [])
    (hp : List.Pairwise (fun a b => rowKey a ≠ rowKey b) rows) :
    update_most_recent_matches ms (some rows) =
      some (rows.filter (fun r => !keyIn (rowKey r) (currentMatchesData ms)) ++
        dropDuplicatesKeepLast (currentMatchesData ms)) := by
  have hne : ms.isEmpty = false := List.isEmpty_eq_false.mpr h
  rw [update_some_of_ne hne, dropDup_append, dropDup_eq_self hp]

/-- C3 witness: the amended order statement evaluated on the two-row
snapshot whose first row is replaced by the incoming match. -/
theorem C3_witness :
    update_most_recent_matches [c3Match] (some [snapRow1, snapRow2]) =
      some ([snapRow1, snapRow2].filter
          (fun r => !keyIn (rowKey r) (currentMatchesData [c3Match])) ++
        dropDuplicatesKeepLast (currentMatchesData [c3Match])) :=
  C3_theorem [snapRow1, snapRow2] [c3Match] (by decide) (by decide)

/-- Membership in the set model is membership in the underlying list. -/
theorem mem_distinctIds : ∀ (l : List String) (x : String),
    x ∈ distinctIds l ↔ x ∈ l := by
  intro l
  induction l with
  | nil => intro x; simp [distinctIds]
  | cons a t ih =>
    intro x
    simp only [distinctIds]
    by_cases h : a ∈ distinctIds t
    · rw [if_pos h, ih x, List.mem_cons]
      constructor
      · exact Or.inr
      · rintro (rfl | hx)
        · exact (ih x).mp h
        · exact hx
    · rw [if_neg h]
      simp [List.mem_cons, ih x]

/-- Unfolding of new-match detection on a non-empty match list with an
existing snapshot. -/
theorem check_some_eq {ms : List MatchData} {rows : List SnapshotRow} {flag : Bool}
    (h : ms.isEmpty = false) :
    check_for_new_matches ms (some rows) flag =
      (if ((distinctIds (ms.map (fun m => m.match_id))).filter
            (fun i => decide (i ∉ rows.map (fun r => r.matchId)))).isEmpty
       then (false, false, some DetectMessage.noNew)
       else (true, true, some (DetectMessage.detectedNew
         ((distinctIds (ms.map (fun m => m.match_id))).filter
            (fun i => decide (i ∉ rows.map (fun r => r.matchId)))).length))) := by
  simp [check_for_new_matches, h]

/-- The parsed matches of a row batch do not depend on the running row
index. -/
theorem parseCsvRows_fst : ∀ (rs : List RawRow) (i : Nat),
    (parseCsvRows i rs).1 = (parseCsvRows 0 rs).1 := by
  intro rs
  induction rs with
  | nil => intro i; rfl
  | cons r t ih =>
    intro i
    cases hpr : parse_match_row r with
    | ok m => simp [parseCsvRows, hpr, ih (i + 1), ih 1]
    | error e => simp [parseCsvRows, hpr, ih (i + 1), ih 1]

/-- A batch whose rows all parse produces no error reports, at any
starting index. -/
theorem parseCsvRows_snd_nil : ∀ (rs : List RawRow) (i : Nat),
    (∀ r ∈ rs, rowOk r = true) → (parseCsvRows i rs).2 = [] := by
  intro rs
  induction rs with
  | nil => intro i _; rfl
  | cons r t ih =>
    intro i h
    have hr : rowOk r = true := h r (List.mem_cons_self r t)
    cases hpr : parse_match_row r with
    | ok m =>
      simp [parseCsvRows, hpr]
      exact ih (i + 1) (fun x hx => h x (List.mem_cons_of_mem r hx))
    | error e =>
      rw [rowOk, hpr] at hr
      cases hr

/-- Skipping behaviour of the batch loop around one malformed row, at
any starting index. -/
theorem parseCsvRows_skip : ∀ (pre : List RawRow) (i : Nat)
    (post : List RawRow) (bad : RawRow) (e : String),
    bad.players = PlayersField.malformed e →
    (∀ r ∈ pre, rowOk r = true) → (∀ r ∈ post, rowOk r = true) →
    parseCsvRows i (pre ++ bad :: post) =
      ((parseCsvRows 0 pre).1 ++ (parseCsvRows 0 post).1,
        [(i + pre.length, "Could not parse players data: " ++ e)]) := by
  intro pre
  induction pre with
  | nil =>
    intro i post bad e hbad _ hpost
    have hbe : parse_match_row bad = Except.error ("Could not parse players data: " ++ e) := by
      rw [parse_match_row, hbad]
    rw [List.nil_append]
    simp only [parseCsvRows, hbe]
    rw [parseCsvRows_fst post (i + 1), parseCsvRows_snd_nil post (i + 1) hpost]
    simp
  | cons r t ih =>
    intro i post bad e hbad hpre hpost
    have hr : rowOk r = true := hpre r (List.mem_cons_self r t)
    cases hpr : parse_match_row r with
    | ok m =>
      rw [List.cons_append]
      simp only [parseCsvRows, hpr]
      rw [ih (i + 1) post bad e hbad
        (fun x hx => hpre x (List.mem_cons_of_mem r hx)) hpost]
      rw [parseCsvRows_fst t 1]
      refine congrArg₂ Prod.mk rfl ?_
      rw [List.length_cons]
      ring_nf
    | error e2 =>
      rw [rowOk, hpr] at hr
      cases hr

/-- Folding club buckets with list-append equals flattening the bucket
contents. -/
theorem foldl_append_players : ∀ (l : List (String × List PlayerStats))
    (acc : List PlayerStats),
    l.foldl (fun a e => a ++ e.2) acc = acc ++ (l.map Prod.snd).flatten := by
  intro l
  induction l with
  | nil => intro acc; simp
  | cons e t ih => intro acc; simp [List.foldl_cons, ih, List.append_assoc]

/-- C4 (confirmed): with an existing snapshot, detection returns true
exactly when the set difference current ids minus snapshot ids is
non-empty; with no prior snapshot it returns true (treating all current
ids as new) and emits the dedicated no-snapshot message, which no run
with an existing snapshot can emit — so the two cases are signalled
distinctly. -/
theorem C4_theorem (ms : List MatchData) (rows : List SnapshotRow) (flag : Bool)
    (h : ms ≠ []) :
    ((check_for_new_matches ms (some rows) flag).1 = true ↔
      ∃ m ∈ ms, ∀ r ∈ rows, r.matchId ≠ m.match_id) ∧
    check_for_new_matches ms none flag =
      (true, true, some DetectMessage.noSnapshot) ∧
    (check_for_new_matches ms (some rows) flag).2.2 ≠
      some DetectMessage.noSnapshot := by
  have hne : ms.isEmpty = false := List.isEmpty_eq_false.mpr h
  refine ⟨?_, by simp [check_for_new_matches, hne], ?_⟩
  · rw [check_some_eq hne]
    cases hni : ((distinctIds (ms.map (fun m => m.match_id))).filter
        (fun i => decide (i ∉ rows.map (fun r => r.matchId)))).isEmpty with
    | true =>
      rw [if_pos rfl]
      constructor
      · intro hc
        exact absurd hc (by decide)
      · rintro ⟨m, hm, hall⟩
        exfalso
        have hmem : m.match_id ∈ distinctIds (ms.map (fun mm => mm.match_id)) :=
          (mem_distinctIds _ _).mpr (List.mem_map.mpr ⟨m, hm, rfl⟩)
        have hfil := List.isEmpty_iff.mp hni
        rw [List.filter_eq_nil_iff] at hfil
        have hni2 := hfil _ hmem
        simp only [decide_eq_true_eq, not_not] at hni2
        obtain ⟨r, hr, hrid⟩ := List.mem_map.mp hni2
        exact hall r hr hrid
    | false =>
      rw [if_neg Bool.false_ne_true]
      constructor
      · intro _
        have hfe := List.isEmpty_eq_false.mp hni
        obtain ⟨x, hx⟩ := List.exists_mem_of_ne_nil _ hfe
        obtain ⟨hx1, hx2⟩ := List.mem_filter.mp hx
        rw [decide_eq_true_eq] at hx2
        obtain ⟨m, hm, hmx⟩ := List.mem_map.mp ((mem_distinctIds _ _).mp hx1)
        exact ⟨m, hm, fun r hr heq => hx2 (List.mem_map.mpr ⟨r, hr, heq.trans hmx⟩)⟩
      · intro _
        rfl
  · rw [check_some_eq hne]
    split
    · exact fun hcon => DetectMessage.noConfusion (Option.some.inj hcon)
    · exact fun hcon => DetectMessage.noConfusion (Option.some.inj hcon)

/-- C4 witness: detection evaluated on one current match against a
one-row snapshot with a different match id, and against an absent
snapshot. -/
theorem C4_witness :
    ((check_for_new_matches [c3Match] (some [snapRow2]) false).1 = true ↔
      ∃ m ∈ [c3Match], ∀ r ∈ [snapRow2], r.matchId ≠ m.match_id) ∧
    check_for_new_matches [c3Match] none false =
      (true, true, some DetectMessage.noSnapshot) ∧
    (check_for_new_matches [c3Match] (some [snapRow2]) false).2.2 ≠
      some DetectMessage.noSnapshot :=
  C4_theorem [c3Match] [snapRow2] false (by decide)

/-- C5 (confirmed): a row whose players column fails the literal parse
is skipped, the batch reports exactly its row index together with the
message wrapping the underlying parse error, and every other
(well-formed) row of the batch is normalized exactly as it would be on
its own. -/
theorem C5_theorem (pre post : List RawRow) (bad : RawRow) (e : String)
    (hbad : bad.players = PlayersField.malformed e)
    (hpre : ∀ r ∈ pre, rowOk r = true) (hpost : ∀ r ∈ post, rowOk r = true) :
    parse_csv (pre ++ bad :: post) =
      ((parse_csv pre).1 ++ (parse_csv post).1,
        [(pre.length, "Could not parse players data: " ++ e)]) := by
  rw [parse_csv, parseCsvRows_skip pre 0 post bad e hbad hpre hpost, Nat.zero_add]
  rfl

/-- C5 witness: a two-row batch whose second row is malformed keeps the
match of the first row and reports index 1 with the wrapped error. -/
theorem C5_witness :
    parse_csv ([exampleRow] ++ c5Bad :: []) =
      ((parse_csv [exampleRow]).1 ++ (parse_csv ([] : List RawRow)).1,
        [(List.length [exampleRow], "Could not parse players data: " ++ "bad")]) :=
  C5_theorem [exampleRow] [] c5Bad "bad" rfl (by decide) (by decide)

/-- An integer stat field parsed from a dict missing its key is zero. -/
theorem intField_default {stats : List (String × PyValue)} {k : String} {v : Int}
    (hf : hasField stats k = false)
    (hg : pyInt (pyGet stats k (PyValue.int 0)) = Except.ok v) : v = 0 := by
  rw [pyGet_default hf] at hg
  exact (Except.ok.inj hg).symm

/-- The rating parsed from a dict missing the rating key is zero. -/
theorem ratingField_default {stats : List (String × PyValue)} {v : ℚ}
    (hf : hasField stats "rating" = false)
    (hg : pyFloat (pyGet stats "rating" (PyValue.int 0)) = Except.ok v) : v = 0 := by
  rw [pyGet_default hf] at hg
  have hv := (Except.ok.inj hg).symm
  simpa using hv

/-- A string-typed stat field read from a dict missing its key is the
default. -/
theorem strField_default {stats : List (String × PyValue)} {k : String}
    {d v : PyValue} (hf : hasField stats k = false)
    (hg : v = pyGet stats k d) : v = d := by
  rw [pyGet_default hf] at hg
  exact hg

/-- C6 (confirmed): for every successfully normalized player, each stat
sub-field absent from the input dict receives its documented default
(name Unknown, position Unknown, archetype 0, rating 0.0, every integer
counter 0); and the worked example row of the spec normalizes to exactly
the stated match. -/
theorem C6_theorem (cid pid : String) (stats : List (String × PyValue))
    (st : PlayerStats) (h : parsePlayer cid pid stats = Except.ok st) :
    (hasField stats "playername" = false → st.player_name = PyValue.str "Unknown") ∧
    (hasField stats "pos" = false → st.position = PyValue.str "Unknown") ∧
    (hasField stats "archetypeid" = false → st.archetype_id = PyValue.str "0") ∧
    (hasField stats "rating" = false → st.rating = 0) ∧
    (hasField stats "goals" = false → st.goals = 0) ∧
    (hasField stats "assists" = false → st.assists = 0) ∧
    (hasField stats "shots" = false → st.shots = 0) ∧
    (hasField stats "passesmade" = false → st.passes_made = 0) ∧
    (hasField stats "passattempts" = false → st.pass_attempts = 0) ∧
    (hasField stats "tacklesmade" = false → st.tackles_made = 0) ∧
    (hasField stats "tackleattempts" = false → st.tackle_attempts = 0) ∧
    (hasField stats "saves" = false → st.saves = 0) ∧
    (hasField stats "secondsPlayed" = false → st.seconds_played = 0) ∧
    (hasField stats "SCORE" = false → st.score = 0) ∧
    (hasField stats "wins" = false → st.wins = 0) ∧
    (hasField stats "losses" = false → st.losses = 0) ∧
    (hasField stats "redcards" = false → st.red_cards = 0) ∧
    (hasField stats "userResult" = false → st.user_result = 0) ∧
    parse_match_row exampleRow = Except.ok exampleMatch := by
  obtain ⟨-, -, hname, hpos, harch, hrat, hg1, hg2, hg3, hg4, hg5, hg6, hg7,
    hg8, hg9, hg10, hg11, hg12, hg13, hg14⟩ := parsePlayer_fields h
  exact ⟨fun hf => strField_default hf hname,
    fun hf => strField_default hf hpos,
    fun hf => strField_default hf harch,
    fun hf => ratingField_default hf hrat,
    fun hf => intField_default hf hg1,
    fun hf => intField_default hf hg2,
    fun hf => intField_default hf hg3,
    fun hf => intField_default hf hg4,
    fun hf => intField_default hf hg5,
    fun hf => intField_default hf hg6,
    fun hf => intField_default hf hg7,
    fun hf => intField_default hf hg8,
    fun hf => intField_default hf hg9,
    fun hf => intField_default hf hg10,
    fun hf => intField_default hf hg11,
    fun hf => intField_default hf hg12,
    fun hf => intField_default hf hg13,
    fun hf => intField_default hf hg14,
    by decide⟩

/-- C6 witness: the defaults evaluated on an empty stats dict, producing
the all-default player. -/
theorem C6_witness :
    (hasField [] "playername" = false → defaultPlayer.player_name = PyValue.str "Unknown") ∧
    (hasField [] "pos" = false → defaultPlayer.position = PyValue.str "Unknown") ∧
    (hasField [] "archetypeid" = false → defaultPlayer.archetype_id = PyValue.str "0") ∧
    (hasField [] "rating" = false → defaultPlayer.rating = 0) ∧
    (hasField [] "goals" = false → defaultPlayer.goals = 0) ∧
    (hasField [] "assists" = false → defaultPlayer.assists = 0) ∧
    (hasField [] "shots" = false → defaultPlayer.shots = 0) ∧
    (hasField [] "passesmade" = false → defaultPlayer.passes_made = 0) ∧
    (hasField [] "passattempts" = false → defaultPlayer.pass_attempts = 0) ∧
    (hasField [] "tacklesmade" = false → defaultPlayer.tackles_made = 0) ∧
    (hasField [] "tackleattempts" = false → defaultPlayer.tackle_attempts = 0) ∧
    (hasField [] "saves" = false → defaultPlayer.saves = 0) ∧
    (hasField [] "secondsPlayed" = false → defaultPlayer.seconds_played = 0) ∧
    (hasField [] "SCORE" = false → defaultPlayer.score = 0) ∧
    (hasField [] "wins" = false → defaultPlayer.wins = 0) ∧
    (hasField [] "losses" = false → defaultPlayer.losses = 0) ∧
    (hasField [] "redcards" = false → defaultPlayer.red_cards = 0) ∧
    (hasField [] "userResult" = false → defaultPlayer.user_result = 0) ∧
    parse_match_row exampleRow = Except.ok exampleMatch :=
  C6_theorem "c" "p" [] defaultPlayer (by decide)

/-- A fallible result flagged ok carries a value. -/
theorem isOk_exists {α : Type} {x : Except String α} (h : x.isOk = true) :
    ∃ v, x = Except.ok v := by
  cases x with
  | ok a => exact ⟨a, rfl⟩
  | error e => simp [Except.isOk, Except.toBool] at h

/-- C7 counterexample: a non-coercible goals value makes the row fail
with the CPython `int()` message, which carries the offending text only —
it does not mention the field (goals), the player (p1), or the club
(c1). -/
theorem C7_counterexample :
    parsePlayer "c1" "p1" [("goals", PyValue.str "x")] =
      Except.error "invalid literal for int() with base 10: x" ∧
    mentions "invalid literal for int() with base 10: x" "goals" = false ∧
    mentions "invalid literal for int() with base 10: x" "p1" = false ∧
    mentions "invalid literal for int() with base 10: x" "c1" = false := by
  exact ⟨by decide, by decide, by decide, by decide⟩

/-- C7 (amended): integer fields are coerced with `int` (truncation on
floats), rating with `float`; a string that is no integer literal raises
the `ValueError` carrying the offending value; and a player normalizes
successfully exactly when every numeric field coerces.  The raised error
does not identify the field, player, or club (see the
counterexample). -/
theorem C7_theorem (cid pid : String) (stats : List (String × PyValue))
    (q : ℚ) (s : String) (hs : parseIntLit s = none) :
    pyInt (PyValue.float q) = Except.ok (ratTrunc q) ∧
    pyInt (PyValue.str s) =
      Except.error ("invalid literal for int() with base 10: " ++ s) ∧
    ((∃ st, parsePlayer cid pid stats = Except.ok st) ↔
      coercionsOk stats = true) := by
  refine ⟨rfl, by simp [pyInt, hs], ?_⟩
  constructor
  · rintro ⟨st, hst⟩
    obtain ⟨-, -, -, -, -, h1, h2, h3, h4, h5, h6, h7, h8, h9, h10, h11, h12,
      h13, h14, h15⟩ := parsePlayer_fields hst
    simp [coercionsOk, h1, h2, h3, h4, h5, h6, h7, h8, h9, h10, h11, h12, h13,
      h14, h15, Except.isOk, Except.toBool]
  · intro hok
    simp only [coercionsOk, Bool.and_eq_true] at hok
    obtain ⟨⟨⟨⟨⟨⟨⟨⟨⟨⟨⟨⟨⟨⟨k1, k2⟩, k3⟩, k4⟩, k5⟩, k6⟩, k7⟩, k8⟩, k9⟩, k10⟩,
      k11⟩, k12⟩, k13⟩, k14⟩, k15⟩ := hok
    obtain ⟨v1, e1⟩ := isOk_exists k1
    obtain ⟨v2, e2⟩ := isOk_exists k2
    obtain ⟨v3, e3⟩ := isOk_exists k3
    obtain ⟨v4, e4⟩ := isOk_exists k4
    obtain ⟨v5, e5⟩ := isOk_exists k5
    obtain ⟨v6, e6⟩ := isOk_exists k6
    obtain ⟨v7, e7⟩ := isOk_exists k7
    obtain ⟨v8, e8⟩ := isOk_exists k8
    obtain ⟨v9, e9⟩ := isOk_exists k9
    obtain ⟨v10, e10⟩ := isOk_exists k10
    obtain ⟨v11, e11⟩ := isOk_exists k11
    obtain ⟨v12, e12⟩ := isOk_exists k12
    obtain ⟨v13, e13⟩ := isOk_exists k13
    obtain ⟨v14, e14⟩ := isOk_exists k14
    obtain ⟨v15, e15⟩ := isOk_exists k15
    cases hrun : parsePlayer cid pid stats with
    | ok st => exact ⟨st, rfl⟩
    | error er =>
      exfalso
      simp [parsePlayer, e1, e2, e3, e4, e5, e6, e7, e8, e9, e10, e11, e12,
        e13, e14, e15, exBind] at hrun

/-- C7 witness: the coercion facts evaluated at the float seven halves
(truncating), the non-literal string x, and an empty stats dict. -/
theorem C7_witness :
    pyInt (PyValue.float (7 / 2)) = Except.ok (ratTrunc (7 / 2)) ∧
    pyInt (PyValue.str "x") =
      Except.error ("invalid literal for int() with base 10: " ++ "x") ∧
    ((∃ st, parsePlayer "c" "p" [] = Except.ok st) ↔
      coercionsOk [] = true) :=
  C7_theorem "c" "p" [] (7 / 2) "x" (by decide)

/-- C8 (confirmed): most-recent selection returns the defined empty
result (none) on an empty match list rather than failing; on a non-empty
list it selects the first match, flattens its players across all club
buckets into one list, and tags the result with the supplied
new-match-detection flag. -/
theorem C8_theorem (flag : Bool) (ms : List MatchData) (m : MatchData)
    (rest : List MatchData) (h : ms = m :: rest) :
    get_most_recent_match [] flag = none ∧
    get_most_recent_match ms flag =
      some { match_id := m.match_id, timestamp := m.timestamp,
             time_ago := m.time_ago, players := m.get_all_players,
             is_new := flag } ∧
    m.get_all_players = (m.players_by_club.map Prod.snd).flatten := by
  subst h
  refine ⟨rfl, rfl, ?_⟩
  unfold MatchData.get_all_players
  rw [foldl_append_players, List.nil_append]

/-- C8 witness: selection evaluated on the empty list and on the worked
example match. -/
theorem C8_witness :
    get_most_recent_match [] true = none ∧
    get_most_recent_match [exampleMatch] true =
      some { match_id := exampleMatch.match_id,
             timestamp := exampleMatch.timestamp,
             time_ago := exampleMatch.time_ago,
             players := exampleMatch.get_all_players, is_new := true } ∧
    exampleMatch.get_all_players =
      (exampleMatch.players_by_club.map Prod.snd).flatten :=
  C8_theorem true [exampleMatch] exampleMatch [] rfl

/-- C9 (confirmed): in a normalized match, every player stored under a
club bucket carries the key of that bucket as its club id and the player key
it was parsed from as its player id — a player record never lands under
a foreign club bucket. -/
theorem C9_theorem (row : RawRow)
    (pd : List (String × List (String × List (String × PyValue))))
    (md : MatchData) (hp : row.players = PlayersField.parsed pd)
    (h : parse_match_row row = Except.ok md) :
    ∀ ce ∈ md.players_by_club, ∀ st ∈ ce.2,
      st.club_id = ce.1 ∧
      ∃ cps, (ce.1, cps) ∈ pd ∧ ∃ pstats, (st.player_id, pstats) ∈ cps ∧
        parsePlayer ce.1 st.player_id pstats = Except.ok st := by
  simp only [parse_match_row, hp] at h
  obtain ⟨pbc, hpbc, h⟩ := exBind_ok h
  injection h with h
  subst h
  have hf2 := exMapM_ok hpbc
  intro ce hce st hst
  obtain ⟨cein, hcein, hceeq⟩ := forallTwo_mem hf2 ce hce
  simp only [clubEntry] at hceeq
  obtain ⟨ps, hps, hceq⟩ := exBind_ok hceeq
  injection hceq with hceq
  have hf3 := exMapM_ok hps
  rw [← hceq] at hst
  obtain ⟨pe, hpe, hpeq⟩ := forallTwo_mem hf3 st hst
  obtain ⟨hid, hclub, -⟩ := parsePlayer_fields hpeq
  constructor
  · rw [← hceq]
    exact hclub
  · refine ⟨cein.2, ?_, pe.2, ?_, ?_⟩
    · rw [← hceq]
      simpa using hcein
    · rw [hid]
      simpa using hpe
    · rw [← hceq, hid]
      exact hpeq

/-- C9 witness: the bucket invariant evaluated on the worked example
row at its single club and player. -/
theorem C9_witness :
    examplePlayer.club_id = "club1" ∧
    ∃ cps, ("club1", cps) ∈ examplePlayers ∧
      ∃ pstats, (examplePlayer.player_id, pstats) ∈ cps ∧
        parsePlayer "club1" examplePlayer.player_id pstats =
          Except.ok examplePlayer :=
  C9_theorem exampleRow examplePlayers exampleMatch rfl (by decide)
    ("club1", [examplePlayer]) (by decide) examplePlayer (by decide)

/-- C10 (confirmed): on a run that normalized zero matches, detection
returns false and leaves the flag unchanged for every snapshot state —
the snapshot is not consulted — and in particular the no-prior-snapshot
signal is never emitted. -/
theorem C10_theorem (snapshot : Option (List SnapshotRow)) (flag : Bool) :
    check_for_new_matches [] snapshot flag = (false, flag, none) ∧
    (check_for_new_matches [] snapshot flag).2.2 ≠
      some DetectMessage.noSnapshot := by
  refine ⟨rfl, ?_⟩
  rw [show check_for_new_matches [] snapshot flag = (false, flag, none) from rfl]
  exact fun hcon => Option.noConfusion hcon

/-- C10 witness: the empty-batch behaviour evaluated at an absent
snapshot and a false flag. -/
theorem C10_witness :
    check_for_new_matches [] none false = (false, false, none) ∧
    (check_for_new_matches [] none false).2.2 ≠
      some DetectMessage.noSnapshot :=
  C10_theorem none false
